import Mathlib

/-!
Verification development for the Cortellis MCP server (TypeScript).

The repository contains several near-duplicate revisions of the same
program.  Following the specification's design note, definitions are
embedded from the most complete revision of each function
(`src/unnamed/part_001` for the query builders, the digest-auth client,
the ontology resolver and the tool envelopes), plus the `src/index.ts`
revision of `searchDrugs`, which is the revision carrying the
`phaseHighest` phase-expression formatting described by the spec.

JavaScript strings are modelled as Lean `String`/`List Char`; JavaScript
numbers are modelled exactly (`Int` for `parseInt` results, `Rat`-based
`JsNum` for `parseFloat` results).  Platform built-ins (`crypto` MD5,
`JSON.parse`, `JSON.stringify`, `Math.random`-generated cnonces, the
HTTP transport) are modelled as explicit parameters of the embedded
functions, so that every definition remains executable.
-/

/-- JavaScript whitespace (the `\s` regex class and `String.prototype.trim`
set): tab, LF, VT, FF, CR, space, NBSP, BOM, and the Unicode space
separators and line/paragraph separators. -/
def isJsWs (c : Char) : Bool :=
  let n := c.toNat
  n == 9 || n == 10 || n == 11 || n == 12 || n == 13 || n == 32 ||
  n == 160 || n == 5760 || (8192 ≤ n && n ≤ 8202) || n == 8232 ||
  n == 8233 || n == 8239 || n == 8287 || n == 12288 || n == 65279

/-- `String.prototype.trim`: strip JS whitespace from both ends. -/
def jsTrimList (cs : List Char) : List Char :=
  ((cs.dropWhile isJsWs).reverse.dropWhile isJsWs).reverse

/-- `String.prototype.trim` on `String`. -/
def jsTrim (s : String) : String :=
  String.mk (jsTrimList s.data)

/-- ASCII decimal digit test. -/
def isDigitChar (c : Char) : Bool :=
  48 ≤ c.toNat && c.toNat ≤ 57

/-- Hexadecimal digit test (for the `parseInt` `0x` form). -/
def isHexDigitChar (c : Char) : Bool :=
  isDigitChar c || (65 ≤ c.toNat && c.toNat ≤ 70) || (97 ≤ c.toNat && c.toNat ≤ 102)

/-- Numeric value of a hexadecimal digit. -/
def hexDigitVal (c : Char) : Nat :=
  if isDigitChar c then c.toNat - 48
  else if c.toNat ≤ 70 then c.toNat - 55
  else c.toNat - 87

/-- Value of a decimal digit string (most significant first). -/
def natOfDigits (ds : List Char) : Nat :=
  ds.foldl (fun a c => a * 10 + (c.toNat - 48)) 0

/-- Value of a hexadecimal digit string (most significant first). -/
def natOfHexDigits (ds : List Char) : Nat :=
  ds.foldl (fun a c => a * 16 + hexDigitVal c) 0

/-- Leading-sign parse shared by `parseInt`/`parseFloat`: returns the sign
(`1` or `-1`) and the remaining characters. -/
def jsSignSplit (cs : List Char) : Int × List Char :=
  match cs with
  | c :: rest =>
    if c.toNat == 43 then (1, rest)
    else if c.toNat == 45 then (-1, rest)
    else (1, c :: rest)
  | [] => (1, [])

/-- Model of JavaScript `parseInt(s)` (radix unspecified): skip leading
whitespace, optional sign, optional `0x`/`0X` hexadecimal prefix, then the
longest run of digits; `none` models `NaN`.  Values are exact integers
(the model ignores float rounding beyond 2^53, which no claim exercises). -/
def jsParseInt (s : String) : Option Int :=
  let cs := s.data.dropWhile isJsWs
  let (sign, cs) := jsSignSplit cs
  match cs with
  | c0 :: cx :: rest =>
    if c0.toNat == 48 && (cx.toNat == 120 || cx.toNat == 88) then
      let hs := rest.takeWhile isHexDigitChar
      if hs.isEmpty then none else some (sign * (natOfHexDigits hs : Int))
    else
      let ds := (c0 :: cx :: rest).takeWhile isDigitChar
      if ds.isEmpty then none else some (sign * (natOfDigits ds : Int))
  | cs =>
    let ds := cs.takeWhile isDigitChar
    if ds.isEmpty then none else some (sign * (natOfDigits ds : Int))

/-- An exact decimal number `m * 10^e` (the value model for JavaScript
`parseFloat` results: every finite decimal literal, and every product of
one with a power of ten or an integer, is represented exactly). -/
structure Dec where
  m : Int
  e : Int
deriving DecidableEq, Repr

/-- The rational value of a `Dec` (used only in theorem statements). -/
def Dec.toRat (d : Dec) : ℚ :=
  (d.m : ℚ) * (10 : ℚ) ^ d.e

/-- A JavaScript number as produced by `parseFloat`: either a finite value
(an exact decimal) or a signed infinity. -/
inductive JsNum where
  | num (d : Dec)
  | inf (neg : Bool)
deriving DecidableEq, Repr

/-- Multiplication of a `JsNum` by an integer constant (exact-value model
of the JS float multiplication `sizeValue * 1000000000`; exact on every
value the claims exercise). -/
def JsNum.scale (v : JsNum) (k : Nat) : JsNum :=
  match v with
  | .num d => .num ⟨d.m * (k : Int), d.e⟩
  | .inf b => .inf b

/-- Model of JavaScript `parseFloat(s)`: skip leading whitespace, optional
sign, then the longest prefix that is `Infinity` or a decimal literal
(digits, optional fraction, optional exponent); `none` models `NaN`.
Finite values are kept exact. -/
def jsParseFloat (s : String) : Option JsNum :=
  let cs := s.data.dropWhile isJsWs
  let (sign, cs) := jsSignSplit cs
  if "Infinity".data.isPrefixOf cs then
    some (.inf (sign < 0))
  else
    let intDs := cs.takeWhile isDigitChar
    let cs1 := cs.dropWhile isDigitChar
    let (hadDot, fracDs, cs2) :=
      match cs1 with
      | c :: rest =>
        if c.toNat == 46 then (true, rest.takeWhile isDigitChar, rest.dropWhile isDigitChar)
        else (false, [], cs1)
      | [] => (false, [], ([] : List Char))
    if intDs.isEmpty && (!hadDot || fracDs.isEmpty) then none
    else
      let mantissa : Int := (natOfDigits intDs * 10 ^ fracDs.length + natOfDigits fracDs : Nat)
      let expVal : Int :=
        match cs2 with
        | e :: rest =>
          if e.toNat == 101 || e.toNat == 69 then
            let (esign, rest2) := jsSignSplit rest
            let eds := rest2.takeWhile isDigitChar
            if eds.isEmpty then 0 else esign * (natOfDigits eds : Int)
          else 0
        | [] => 0
      some (.num ⟨sign * mantissa, expVal - fracDs.length⟩)

/-- Strip up to `k` trailing zero digits, returning the remaining digits
and the number of fractional places still pending. -/
def stripZeros (ds : List Char) : Nat → List Char × Nat
  | 0 => (ds, 0)
  | k + 1 =>
    match ds.getLast? with
    | some c =>
      if c.toNat == 48 then stripZeros ds.dropLast k else (ds, k + 1)
    | none => (ds, k + 1)

/-- Decimal rendering of a `Dec`, matching JavaScript number-to-string
conversion on the plain-notation range the program emits (no exponent
notation; the values the claims exercise are all in that range). -/
def Dec.render (d : Dec) : String :=
  if d.m == 0 then "0"
  else
    let sign := if d.m < 0 then "-" else ""
    let digits := toString d.m.natAbs
    if 0 ≤ d.e then
      sign ++ digits ++ String.mk (List.replicate d.e.toNat (Char.ofNat 48))
    else
      let (ds, k) := stripZeros digits.data (-d.e).toNat
      if k == 0 then sign ++ String.mk ds
      else if k < ds.length then
        sign ++ String.mk (ds.take (ds.length - k)) ++ "." ++
          String.mk (ds.drop (ds.length - k))
      else
        sign ++ "0." ++ String.mk (List.replicate (k - ds.length) (Char.ofNat 48)) ++
          String.mk ds

/-- Model of JavaScript number-to-string conversion for the values the
program emits (plain decimal notation; infinities print as `Infinity`). -/
def jsNumToString (v : JsNum) : String :=
  match v with
  | .num d => d.render
  | .inf neg => if neg then "-Infinity" else "Infinity"

/-- Unreserved characters of `encodeURIComponent`
(`A–Z a–z 0–9 - _ . ! ~ * ' ( )`). -/
def encodeURIComponentUnreserved (c : Char) : Bool :=
  let n := c.toNat
  (65 ≤ n && n ≤ 90) || (97 ≤ n && n ≤ 122) || (48 ≤ n && n ≤ 57) ||
  n == 45 || n == 95 || n == 46 || n == 33 || n == 126 || n == 42 ||
  n == 39 || n == 40 || n == 41

/-- Uppercase hexadecimal digit. -/
def hexUpper (n : Nat) : Char :=
  if n < 10 then Char.ofNat (48 + n) else Char.ofNat (55 + n)

/-- Percent-encoding of one byte, e.g. `%2F`. -/
def byteHex (b : Nat) : String :=
  String.mk [Char.ofNat 37, hexUpper (b / 16), hexUpper (b % 16)]

/-- UTF-8 bytes of one code point. -/
def utf8Bytes (c : Char) : List Nat :=
  let n := c.toNat
  if n < 128 then [n]
  else if n < 2048 then [192 + n / 64, 128 + n % 64]
  else if n < 65536 then [224 + n / 4096, 128 + (n / 64) % 64, 128 + n % 64]
  else [240 + n / 262144, 128 + (n / 4096) % 64, 128 + (n / 64) % 64, 128 + n % 64]

/-- Model of JavaScript `encodeURIComponent`: unreserved characters pass
through, every other character is percent-encoded byte-wise in UTF-8. -/
def encodeURIComponent (s : String) : String :=
  s.data.foldl
    (fun acc c =>
      if encodeURIComponentUnreserved c then acc.push c
      else acc ++ String.join ((utf8Bytes c).map byteHex))
    ""

/-- JavaScript truthiness of an optional string (`undefined` and `""` are
falsy). -/
def truthyStr (o : Option String) : Bool :=
  match o with
  | some s => !(s == "")
  | none => false

/-- `params.offset || 0`: a missing (or zero) offset becomes `0`. -/
def offsetOr0 (o : Option Int) : Int :=
  match o with
  | some n => if n == 0 then 0 else n
  | none => 0

/-- One structured field's contribution to a query-part list: a clause is
pushed exactly when the field is present and non-empty (`if (params.x)`). -/
def optClause (o : Option String) (f : String → String) : List String :=
  match o with
  | some v => if v == "" then [] else [f v]
  | none => []

/-- An optional already-built clause as a query-part list. -/
def optionalPart (o : Option String) : List String :=
  match o with
  | some c => [c]
  | none => []

/-- `let query = params.query; if (!query) { query = structured }`. -/
def rawOrStructured (q : Option String) (structured : String) : String :=
  match q with
  | some s => if s == "" then structured else s
  | none => structured

/-! ## Phase expressions (`/\s+(?:OR|AND)\s+/` split and operator scan) -/

/-- Anchored match of the separator regex `\s+(OR|AND)\s+` at the head of
`cs`: the greedy whitespace run is forced to be maximal (the operator
letters are not whitespace, so backtracking inside the run cannot
succeed), then `OR` is tried before `AND`, then at least one whitespace
character, consumed greedily.  Returns the captured operator and the
characters after the match. -/
def phaseSepHere (cs : List Char) : Option (String × List Char) :=
  match cs with
  | c :: _ =>
    if isJsWs c then
      let rest := cs.dropWhile isJsWs
      if ['O', 'R'].isPrefixOf rest then
        match rest.drop 2 with
        | d :: _ => if isJsWs d then some ("OR", (rest.drop 2).dropWhile isJsWs) else
            phaseSepAnd rest
        | [] => phaseSepAnd rest
      else phaseSepAnd rest
    else none
  | [] => none
where
  /-- The `AND` alternative of the separator regex. -/
  phaseSepAnd (rest : List Char) : Option (String × List Char) :=
    if ['A', 'N', 'D'].isPrefixOf rest then
      match rest.drop 3 with
      | d :: _ => if isJsWs d then some ("AND", (rest.drop 3).dropWhile isJsWs) else none
      | [] => none
    else none

/-- Leftmost match of the separator regex in `cs`: returns the characters
before the match, the captured operator, and the characters after. -/
def phaseSepSearch : List Char → Option (List Char × String × List Char)
  | [] => none
  | c :: rest =>
    match phaseSepHere (c :: rest) with
    | some (op, after) => some ([], op, after)
    | none =>
      match phaseSepSearch rest with
      | some (pre, op, after) => some (c :: pre, op, after)
      | none => none

/-- Fuelled splitting on successive separator matches
(`s.split(/\s+(?:OR|AND)\s+/)`). -/
def jsSplitPhasesAux : Nat → List Char → List String
  | 0, cs => [String.mk cs]
  | fuel + 1, cs =>
    match phaseSepSearch cs with
    | some (pre, _, after) => String.mk pre :: jsSplitPhasesAux fuel after
    | none => [String.mk cs]

/-- `s.split(/\s+(?:OR|AND)\s+/)`. -/
def jsSplitPhases (s : String) : List String :=
  jsSplitPhasesAux s.data.length s.data

/-- `s.match(/\s+(OR|AND)\s+/)?.[1]`: the operator captured by the first
separator match, if any. -/
def jsPhaseOperator (s : String) : Option String :=
  match phaseSepSearch s.data with
  | some (_, op, _) => some op
  | none => none

/-- The short-code test `/^[A-Z0-9]+$/.test(p)`. -/
def isShortCode (p : String) : Bool :=
  !p.data.isEmpty && p.data.all (fun c => (65 ≤ c.toNat && c.toNat ≤ 90) || isDigitChar c)

/-- One `phase` token's clause in `src/index.ts` `searchDrugs`
(`phaseHighest::` short form, unquoted `phaseHighest:` descriptive form). -/
def fmtPhaseHighest (p : String) : String :=
  if isShortCode p then "phaseHighest::" ++ p else "phaseHighest:" ++ p

/-- One `phase_terminated` token's clause (`phaseTerminated::` short form,
quoted descriptive form), identical in `src/index.ts` and
`src/unnamed/part_001`. -/
def fmtPhaseTerminated (p : String) : String :=
  if isShortCode p then "phaseTerminated::" ++ p else "phaseTerminated:\"" ++ p ++ "\""

/-- The `params.phase` branch of `src/index.ts` `searchDrugs`: split on
OR/AND, trim, format each token, and for multiple tokens parenthesize and
rejoin with the first scanned operator (defaulting to `OR`). -/
def phaseClause (s : String) : String :=
  let phases := (jsSplitPhases s).map jsTrim
  if 1 < phases.length then
    let operator := (jsPhaseOperator s).getD "OR"
    "(" ++ String.intercalate (" " ++ operator ++ " ") (phases.map fmtPhaseHighest) ++ ")"
  else fmtPhaseHighest (phases.headD "")

/-- The `params.phase_terminated` branch of `searchDrugs` (same structure,
quoted descriptive tokens). -/
def phaseTerminatedClause (s : String) : String :=
  let phases := (jsSplitPhases s).map jsTrim
  if 1 < phases.length then
    let operator := (jsPhaseOperator s).getD "OR"
    "(" ++ String.intercalate (" " ++ operator ++ " ") (phases.map fmtPhaseTerminated) ++ ")"
  else fmtPhaseTerminated (phases.headD "")

/-! ## Parameter bags (one per intent) -/

structure SearchParams where
  query : Option String := none
  company : Option String := none
  indication : Option String := none
  action : Option String := none
  phase : Option String := none
  phase_terminated : Option String := none
  technology : Option String := none
  drug_name : Option String := none
  country : Option String := none
  offset : Option Int := none

structure SearchCompaniesParams where
  query : Option String := none
  company_name : Option String := none
  hq_country : Option String := none
  deals_count : Option String := none
  indications : Option String := none
  actions : Option String := none
  technologies : Option String := none
  company_size : Option String := none
  status : Option String := none
  offset : Option Int := none

structure SearchDealsParams where
  query : Option String := none
  dealDrugNamesAll : Option String := none
  indications : Option String := none
  dealDrugCompanyPartnerIndications : Option String := none
  dealPhaseHighestStart : Option String := none
  dealPhaseHighestNow : Option String := none
  dealStatus : Option String := none
  dealSummary : Option String := none
  dealTitleSummary : Option String := none
  technologies : Option String := none
  dealTitle : Option String := none
  dealType : Option String := none
  actionsPrimary : Option String := none
  dealDrugActionsPrimary : Option String := none
  dealCompanyPrincipal : Option String := none
  dealCompanyPartner : Option String := none
  dealCompanyPrincipalHq : Option String := none
  dealTerritoriesIncluded : Option String := none
  dealTerritoriesExcluded : Option String := none
  dealDateStart : Option String := none
  dealDateEnd : Option String := none
  dealDateEventMostRecent : Option String := none
  dealValuePaidToPartnerMaxNumber : Option String := none
  dealTotalProjectedCurrentAmount : Option String := none
  dealValuePaidToPartnerMinNumber : Option String := none
  dealTotalPaidAmount : Option String := none
  dealValuePaidToPrincipalMaxDisclosureStatus : Option String := none
  dealValuePaidToPrincipalMaxNumber : Option String := none
  dealValuePaidToPrincipalMinNumber : Option String := none
  dealValueProjectedToPartnerMaxNumber : Option String := none
  dealValueProjectedToPartnerMinNumber : Option String := none
  dealValueProjectedToPrincipalMaxDisclosureStatus : Option String := none
  dealValueProjectedToPrincipalMaxNumber : Option String := none
  dealValueProjectedToPrincipalMinNumber : Option String := none
  offset : Option Int := none

structure OntologyParams where
  term : Option String := none
  category : Option String := none
  action : Option String := none
  indication : Option String := none
  company : Option String := none
  drug_name : Option String := none
  target : Option String := none
  technology : Option String := none

/-! ## Range expressions (`deals_count`, `company_size`) -/

/-- `String.prototype.startsWith` (list-based, kernel-reducible). -/
def strStartsWith (s pre : String) : Bool :=
  pre.data.isPrefixOf s.data

/-- `String.prototype.substring(n)` (drop the first `n` characters). -/
def strDrop (s : String) (n : Nat) : String :=
  String.mk (s.data.drop n)

/-- The `deals_count` branch of `searchCompanies`: trim, read an optional
`<`/`>` prefix (default operator `>`), `parseInt` the remainder, and emit
`companyDealsCount:RANGE(<op><n>)` — or nothing when the remainder is not
numeric. -/
def dealsCountClause (s : String) : Option String :=
  let dealsStr := jsTrim s
  let (operator, count) :=
    if strStartsWith dealsStr "<" then ("<", strDrop dealsStr 1)
    else if strStartsWith dealsStr ">" then (">", strDrop dealsStr 1)
    else (">", dealsStr)
  match jsParseInt count with
  | some n => some ("companyDealsCount:RANGE(" ++ operator ++ toString n ++ ")")
  | none => none

/-- The `company_size` branch of `searchCompanies`: trim, read an optional
`<`/`>` prefix (default `>`), `parseFloat` the remainder, scale the value
by `1000000000` (billions), and emit
`companyCategoryCompanySize:RANGE(<op><v>)` — or nothing when the
remainder is not numeric. -/
def companySizeClause (s : String) : Option String :=
  let sizeStr := jsTrim s
  let (operator, size) :=
    if strStartsWith sizeStr "<" then ("<", strDrop sizeStr 1)
    else if strStartsWith sizeStr ">" then (">", strDrop sizeStr 1)
    else (">", sizeStr)
  match jsParseFloat size with
  | some v =>
    some ("companyCategoryCompanySize:RANGE(" ++ operator ++
      jsNumToString (v.scale 1000000000) ++ ")")
  | none => none

/-! ## Query builders, `src/unnamed/part_001` revision -/

namespace P1

/-- `searchDrugs` LINKED clause list (development-status fields). -/
def drugsLinkedParts (p : SearchParams) : List String :=
  optClause p.company (fun v => "developmentStatusCompanyId:" ++ v) ++
  optClause p.indication (fun v => "developmentStatusIndicationId:" ++ v) ++
  optClause p.country (fun v => "developmentStatusCountryId:" ++ v) ++
  optClause p.phase (fun v => "developmentStatusPhaseId:" ++ v)

/-- `searchDrugs` independent clause list (technology, phase_terminated,
action, drug name). -/
def drugsOtherParts (p : SearchParams) : List String :=
  optClause p.technology (fun v => "technologies:" ++ v) ++
  optClause p.phase_terminated phaseTerminatedClause ++
  optClause p.action (fun v => "actionsPrimary:" ++ v) ++
  optClause p.drug_name (fun v => "drugNamesAll:" ++ v)

/-- `searchDrugs` structured query: the LINKED group and the independent
clauses joined with `AND`; wildcard `*` when nothing is present. -/
def drugsStructured (p : SearchParams) : String :=
  let linkedParts := drugsLinkedParts p
  let otherParts := drugsOtherParts p
  let linkedQuery :=
    if 0 < linkedParts.length then
      "LINKED(" ++ String.intercalate " AND " linkedParts ++ ")" else ""
  let otherQuery :=
    if 0 < otherParts.length then String.intercalate " AND " otherParts else ""
  if linkedQuery != "" && otherQuery != "" then linkedQuery ++ " AND " ++ otherQuery
  else if linkedQuery != "" then linkedQuery
  else if otherQuery != "" then otherQuery
  else "*"

/-- The query sent by `searchDrugs`: the raw `query` parameter when
present and non-empty, else the structured query. -/
def drugsQuery (p : SearchParams) : String :=
  rawOrStructured p.query (drugsStructured p)

/-- Base endpoint of `searchDrugs`. -/
def drugsBaseUrl : String :=
  "https://api.cortellis.com/api-ws/ws/rs/drugs-v2/drug/search"

/-- The URL built by `searchDrugs`. -/
def drugsSearchUrl (p : SearchParams) : String :=
  drugsBaseUrl ++ "?query=" ++ encodeURIComponent (drugsQuery p) ++
  "&offset=" ++ toString (offsetOr0 p.offset) ++ "&filtersEnabled=false&fmt=json&hits=100"

/-- `searchCompanies` clause list, in source order. -/
def companiesParts (p : SearchCompaniesParams) : List String :=
  optClause p.company_name (fun v => "companyNameDisplay:" ++ v) ++
  optClause p.hq_country (fun v => "companyHqCountry:" ++ v) ++
  optionalPart (p.deals_count.bind dealsCountClause) ++
  optClause p.indications (fun v => "companyIndicationsKey:" ++ v) ++
  optClause p.actions (fun v => "companyActionsKey:" ++ v) ++
  optClause p.technologies (fun v => "companyTechnologiesKey:" ++ v) ++
  optionalPart (p.company_size.bind companySizeClause) ++
  optClause p.status (fun v => "LINKED(statusLinked:" ++ v ++ ")")

/-- `searchCompanies` structured query (`AND` join, wildcard default). -/
def companiesStructured (p : SearchCompaniesParams) : String :=
  let queryParts := companiesParts p
  if 0 < queryParts.length then String.intercalate " AND " queryParts else "*"

/-- The query sent by `searchCompanies`. -/
def companiesQuery (p : SearchCompaniesParams) : String :=
  rawOrStructured p.query (companiesStructured p)

/-- Base endpoint of `searchCompanies`. -/
def companiesBaseUrl : String :=
  "https://api.cortellis.com/api-ws/ws/rs/company-v2/company/search"

/-- The URL built by `searchCompanies`. -/
def companiesSearchUrl (p : SearchCompaniesParams) : String :=
  companiesBaseUrl ++ "?query=" ++ encodeURIComponent (companiesQuery p) ++
  "&offset=" ++ toString (offsetOr0 p.offset) ++ "&hits=100&fmt=json"

/-- `searchDeals` clause list: every field maps 1:1 to an identically
named clause, in source order. -/
def dealsParts (p : SearchDealsParams) : List String :=
  optClause p.dealDrugNamesAll (fun v => "dealDrugNamesAll:" ++ v) ++
  optClause p.indications (fun v => "indications:" ++ v) ++
  optClause p.dealDrugCompanyPartnerIndications
    (fun v => "dealDrugCompanyPartnerIndications:" ++ v) ++
  optClause p.dealPhaseHighestStart (fun v => "dealPhaseHighestStart:" ++ v) ++
  optClause p.dealPhaseHighestNow (fun v => "dealPhaseHighestNow:" ++ v) ++
  optClause p.dealStatus (fun v => "dealStatus:" ++ v) ++
  optClause p.dealSummary (fun v => "dealSummary:" ++ v) ++
  optClause p.dealTitleSummary (fun v => "dealTitleSummary:" ++ v) ++
  optClause p.technologies (fun v => "technologies:" ++ v) ++
  optClause p.dealTitle (fun v => "dealTitle:" ++ v) ++
  optClause p.dealType (fun v => "dealType:" ++ v) ++
  optClause p.actionsPrimary (fun v => "actionsPrimary:" ++ v) ++
  optClause p.dealDrugActionsPrimary (fun v => "dealDrugActionsPrimary:" ++ v) ++
  optClause p.dealCompanyPrincipal (fun v => "dealCompanyPrincipal:" ++ v) ++
  optClause p.dealCompanyPartner (fun v => "dealCompanyPartner:" ++ v) ++
  optClause p.dealCompanyPrincipalHq (fun v => "dealCompanyPrincipalHq:" ++ v) ++
  optClause p.dealTerritoriesIncluded (fun v => "dealTerritoriesIncluded:" ++ v) ++
  optClause p.dealTerritoriesExcluded (fun v => "dealTerritoriesExcluded:" ++ v) ++
  optClause p.dealDateStart (fun v => "dealDateStart:" ++ v) ++
  optClause p.dealDateEnd (fun v => "dealDateEnd:" ++ v) ++
  optClause p.dealDateEventMostRecent (fun v => "dealDateEventMostRecent:" ++ v) ++
  optClause p.dealValuePaidToPartnerMaxNumber
    (fun v => "dealValuePaidToPartnerMaxNumber:" ++ v) ++
  optClause p.dealTotalProjectedCurrentAmount
    (fun v => "dealTotalProjectedCurrentAmount:" ++ v) ++
  optClause p.dealValuePaidToPartnerMinNumber
    (fun v => "dealValuePaidToPartnerMinNumber:" ++ v) ++
  optClause p.dealTotalPaidAmount (fun v => "dealTotalPaidAmount:" ++ v) ++
  optClause p.dealValuePaidToPrincipalMaxDisclosureStatus
    (fun v => "dealValuePaidToPrincipalMaxDisclosureStatus:" ++ v) ++
  optClause p.dealValuePaidToPrincipalMaxNumber
    (fun v => "dealValuePaidToPrincipalMaxNumber:" ++ v) ++
  optClause p.dealValuePaidToPrincipalMinNumber
    (fun v => "dealValuePaidToPrincipalMinNumber:" ++ v) ++
  optClause p.dealValueProjectedToPartnerMaxNumber
    (fun v => "dealValueProjectedToPartnerMaxNumber:" ++ v) ++
  optClause p.dealValueProjectedToPartnerMinNumber
    (fun v => "dealValueProjectedToPartnerMinNumber:" ++ v) ++
  optClause p.dealValueProjectedToPrincipalMaxDisclosureStatus
    (fun v => "dealValueProjectedToPrincipalMaxDisclosureStatus:" ++ v) ++
  optClause p.dealValueProjectedToPrincipalMaxNumber
    (fun v => "dealValueProjectedToPrincipalMaxNumber:" ++ v) ++
  optClause p.dealValueProjectedToPrincipalMinNumber
    (fun v => "dealValueProjectedToPrincipalMinNumber:" ++ v)

/-- `searchDeals` structured query (`AND` join, wildcard default). -/
def dealsStructured (p : SearchDealsParams) : String :=
  let queryParts := dealsParts p
  if 0 < queryParts.length then String.intercalate " AND " queryParts else "*"

/-- The query sent by `searchDeals`. -/
def dealsQuery (p : SearchDealsParams) : String :=
  rawOrStructured p.query (dealsStructured p)

/-- Base endpoint of `searchDeals`. -/
def dealsBaseUrl : String :=
  "https://api.cortellis.com/api-ws/ws/rs/deals-v2/deal/search"

/-- The URL built by `searchDeals`. -/
def dealsSearchUrl (p : SearchDealsParams) : String :=
  dealsBaseUrl ++ "?query=" ++ encodeURIComponent (dealsQuery p) ++
  "&offset=" ++ toString (offsetOr0 p.offset) ++ "&fmt=json&hits=100"

end P1

/-! ## `searchDrugs`, `src/index.ts` revision (phase-expression clauses) -/

namespace IndexTs

/-- `searchDrugs` clause list of the `src/index.ts` revision, in source
order; `phase`/`phase_terminated` go through phase-expression expansion,
`country` is wrapped in `LINKED(...)`. -/
def drugsParts (p : SearchParams) : List String :=
  optClause p.company (fun v => "companiesPrimary:\"" ++ v ++ "\"") ++
  optClause p.indication (fun v => "indicationsPrimary:" ++ v) ++
  optClause p.action (fun v => "actionsPrimary:" ++ v) ++
  optClause p.phase phaseClause ++
  optClause p.phase_terminated phaseTerminatedClause ++
  optClause p.technology (fun v => "technologies:" ++ v) ++
  optClause p.drug_name (fun v => "drugNamesAll:" ++ v) ++
  optClause p.country (fun v => "LINKED(developmentStatusCountryId:" ++ v ++ ")")

/-- `searchDrugs` structured query of the `src/index.ts` revision. -/
def drugsStructured (p : SearchParams) : String :=
  let queryParts := drugsParts p
  if 0 < queryParts.length then String.intercalate " AND " queryParts else "*"

/-- The query sent by the `src/index.ts` `searchDrugs`. -/
def drugsQuery (p : SearchParams) : String :=
  rawOrStructured p.query (drugsStructured p)

/-- The URL built by the `src/index.ts` `searchDrugs`. -/
def drugsSearchUrl (p : SearchParams) : String :=
  P1.drugsBaseUrl ++ "?query=" ++ encodeURIComponent (drugsQuery p) ++
  "&offset=" ++ toString (offsetOr0 p.offset) ++ "&filtersEnabled=false&fmt=json&hits=100"

end IndexTs

/-! ## JSON values, errors, HTTP model -/

/-- JSON values (numbers kept exact; adequate for every claim). -/
inductive Json where
  | null
  | bool (b : Bool)
  | num (q : ℚ)
  | str (s : String)
  | arr (xs : List Json)
  | obj (fields : List (String × Json))
deriving Repr

/-- JavaScript falsiness of a parsed JSON value (`null`, `false`, `0`,
`""`). -/
def jsFalsyJson (j : Json) : Bool :=
  match j with
  | .null => true
  | .bool b => !b
  | .num q => q == 0
  | .str s => s == ""
  | .arr _ => false
  | .obj _ => false

/-- `McpError`: a numeric code and a message. -/
structure McpErr where
  code : Int
  message : String
deriving Repr

/-- An HTTP response as observed by the client: response headers, the
`ok` flag, the status code, and the body text. -/
structure HttpResponse where
  headers : List (String × String) := []
  ok : Bool := true
  status : Int := 200
  body : String := ""

/-- One request issued by the client: URL, method, and the
`Authorization` header when one was sent. -/
structure ReqRecord where
  url : String
  method : String
  authHeader : Option String
deriving Repr

/-- ASCII lower-casing (for case-insensitive header lookup). -/
def asciiLower (s : String) : String :=
  String.mk (s.data.map (fun c =>
    if 65 ≤ c.toNat && c.toNat ≤ 90 then Char.ofNat (c.toNat + 32) else c))

/-- `response.headers.get(name)`: case-insensitive lookup of the first
matching header. -/
def headersGet (hs : List (String × String)) (name : String) : Option String :=
  (hs.find? (fun kv => asciiLower kv.1 == asciiLower name)).map (·.2)

/-! ## Ontology resolution (`exploreOntology`, `src/unnamed/part_001`) -/

/-- The fixed category lookup table mapping a resolved category to the
API's taxonomy path segment (`drug_name` → `drug`, all others identity). -/
def categoryMap (c : String) : Option String :=
  if c == "action" then some "action"
  else if c == "indication" then some "indication"
  else if c == "company" then some "company"
  else if c == "drug_name" then some "drug"
  else if c == "target" then some "target"
  else if c == "technology" then some "technology"
  else none

/-- The category/term resolution of `exploreOntology`: when `category` and
`term` are not both present and non-empty, the single-purpose fields are
checked in fixed priority order (action, indication, company, drug_name,
target, technology) and the first non-empty one fixes both; then the
category goes through `categoryMap`.  Errors mirror the two `McpError`
throws of the source. -/
def ontologyResolve (p : OntologyParams) : Except McpErr (String × String) :=
  let (searchCategory, searchTerm) := ontologyChain p
  if !truthyStr searchCategory || !truthyStr searchTerm then
    .error ⟨-32603, "Category and search term are required"⟩
  else
    let sc := searchCategory.getD ""
    let st := searchTerm.getD ""
    match categoryMap sc with
    | none => .error ⟨-32603, "Invalid category: " ++ sc⟩
    | some apiCategory => .ok (apiCategory, st)
where
  /-- The `if (!searchCategory || !searchTerm)` fallback chain over the
  single-purpose fields, in source order. -/
  ontologyChain (p : OntologyParams) : Option String × Option String :=
    let searchTerm := p.term
    let searchCategory := p.category
    if !truthyStr searchCategory || !truthyStr searchTerm then
      if truthyStr p.action then (some "action", p.action)
      else if truthyStr p.indication then (some "indication", p.indication)
      else if truthyStr p.company then (some "company", p.company)
      else if truthyStr p.drug_name then (some "drug_name", p.drug_name)
      else if truthyStr p.target then (some "target", p.target)
      else if truthyStr p.technology then (some "technology", p.technology)
      else (searchCategory, searchTerm)
    else (searchCategory, searchTerm)

/-- Base endpoint of the taxonomy API. -/
def ontologyBaseUrl : String :=
  "https://api.cortellis.com/api-ws/ws/rs/ontologies-v1/taxonomy"

/-- The URL built by `exploreOntology` from the resolved category and
term. -/
def ontologySearchUrl (apiCategory term : String) : String :=
  ontologyBaseUrl ++ "/" ++ apiCategory ++ "/search/" ++ encodeURIComponent term ++
  "?showDuplicates=0&hitSynonyms=1&fmt=json"

/-! ## Digest auth client (`digestAuth`, `src/unnamed/part_001`) -/

/-- Leftmost match of the header-parsing regex `key="([^"]+)"` in `s` (the
capture needs at least one non-quote character); returns the capture.
Positions are tried left to right, as the regex engine does. -/
def jsMatchQuoted (key : String) : String → Option String :=
  fun s => go (key.data ++ ['=', '"']) s.data s.data.length
where
  /-- Anchored attempt: literal `key="`, then a non-empty non-quote run,
  then `"`. -/
  tryHere (pat cs : List Char) : Option String :=
    if pat.isPrefixOf cs then
      let rest := cs.drop pat.length
      let cap := rest.takeWhile (fun c => !(c.toNat == 34))
      if cap.isEmpty then none
      else
        match rest.drop cap.length with
        | c :: _ => if c.toNat == 34 then some (String.mk cap) else none
        | [] => none
    else none
  /-- Fuelled left-to-right scan. -/
  go (pat cs : List Char) : Nat → Option String
    | 0 => tryHere pat cs
    | fuel + 1 =>
      match tryHere pat cs with
      | some r => some r
      | none =>
        match cs with
        | [] => none
        | _ :: rest => go pat rest fuel

/-- `HA1 = MD5(username:realm:password)`. -/
def digestHa1 (md5 : String → String) (username password realm : String) : String :=
  md5 (username ++ ":" ++ realm ++ ":" ++ password)

/-- `HA2 = MD5(method:url)`. -/
def digestHa2 (md5 : String → String) (method url : String) : String :=
  md5 (method ++ ":" ++ url)

/-- The `response_value` hash of `digestAuth`: the RFC 2617 form
`MD5(HA1:nonce:nc:cnonce:qop:HA2)` with `nc = "00000001"` when the
challenge carried a `qop`, else the RFC 2069 form `MD5(HA1:nonce:HA2)`.
`md5` models the `crypto` MD5 built-in and `cnonce` the generated client
nonce. -/
def digestResponseValue (md5 : String → String) (username password method url : String)
    (realm nonce : String) (qop : Option String) (cnonce : String) : String :=
  let ha1 := digestHa1 md5 username password realm
  let ha2 := digestHa2 md5 method url
  match qop with
  | some q => md5 (ha1 ++ ":" ++ nonce ++ ":" ++ "00000001" ++ ":" ++ cnonce ++ ":" ++ q ++ ":" ++ ha2)
  | none => md5 (ha1 ++ ":" ++ nonce ++ ":" ++ ha2)

/-- The `Authorization: Digest` header built by `digestAuth`: with `qop`
it includes `qop`, `nc` and `cnonce`; without `qop` it carries only
username, realm, nonce, uri, response and algorithm. -/
def digestAuthHeader (md5 : String → String) (username password method url : String)
    (realm nonce : String) (qop : Option String) (cnonce : String) : String :=
  let rv := digestResponseValue md5 username password method url realm nonce qop cnonce
  match qop with
  | some q =>
    "Digest username=\"" ++ username ++ "\", realm=\"" ++ realm ++ "\", nonce=\"" ++
    nonce ++ "\", uri=\"" ++ url ++ "\", qop=" ++ q ++ ", nc=00000001, cnonce=\"" ++
    cnonce ++ "\", response=\"" ++ rv ++ "\", algorithm=\"MD5\""
  | none =>
    "Digest username=\"" ++ username ++ "\", realm=\"" ++ realm ++ "\", nonce=\"" ++
    nonce ++ "\", uri=\"" ++ url ++ "\", response=\"" ++ rv ++ "\", algorithm=\"MD5\""

/-- `text.substring(0, 100)`. -/
def strTake (s : String) (n : Nat) : String :=
  String.mk (s.data.take n)

/-- The two-phase `digestAuth` call of `src/unnamed/part_001`, with the
platform built-ins (`md5`, `JSON.parse` as `jparse`, the generated
`cnonce`) and the transport (the two responses the network returns) as
explicit parameters.  Returns the result together with the list of
requests actually issued, so that "performs no second request" is
observable.  The `Invalid JSON response` message also covers the falsy
parsed body, because the inner `Empty response` throw lands in the
`catch (parseError)` block of the source. -/
def digestAuthRun (md5 : String → String) (jparse : String → Option Json)
    (cnonce : String) (username password url method : String)
    (resp1 resp2 : HttpResponse) : Except McpErr Json × List ReqRecord :=
  let req1 : ReqRecord := ⟨url, method, none⟩
  match headersGet resp1.headers "www-authenticate" with
  | none => (.error ⟨-32603, "No WWW-Authenticate header received"⟩, [req1])
  | some authHeader =>
    let realm := jsMatchQuoted "realm" authHeader
    let nonce := jsMatchQuoted "nonce" authHeader
    let qop := jsMatchQuoted "qop" authHeader
    match realm, nonce with
    | some realm, some nonce =>
      let digestResponse := digestAuthHeader md5 username password method url realm nonce qop cnonce
      let req2 : ReqRecord := ⟨url, method, some digestResponse⟩
      let log := [req1, req2]
      if !resp2.ok then
        (.error ⟨-32603, "Request failed with status " ++ toString resp2.status ++ ": " ++ resp2.body⟩, log)
      else
        match jparse resp2.body with
        | none => (.error ⟨-32603, "Invalid JSON response: " ++ strTake resp2.body 100 ++ "..."⟩, log)
        | some j =>
          if jsFalsyJson j then
            (.error ⟨-32603, "Invalid JSON response: " ++ strTake resp2.body 100 ++ "..."⟩, log)
          else (.ok j, log)
    | _, _ =>
      (.error ⟨-32603, "Invalid WWW-Authenticate header - missing realm or nonce"⟩, [req1])

/-! ## Tool results (uniform envelope) -/

/-- One content item of a tool result. -/
structure ContentItem where
  type : String
  text : String
deriving Repr

/-- The envelope every tool operation returns:
`{ content: [...], isError: ... }`. -/
structure ToolResult where
  content : List ContentItem
  isError : Bool
deriving Repr

namespace P1

/-- `searchDrugs` end to end, with the authenticated fetch (`auth`) and
`JSON.stringify(·, null, 2)` (`stringify`) as explicit parameters: build
the URL, fetch, wrap the response in the envelope; rethrow failures as
`API request failed: ...`. -/
def searchDrugsRun (p : SearchParams) (auth : String → Except McpErr Json)
    (stringify : Json → String) : Except McpErr ToolResult :=
  match auth (drugsSearchUrl p) with
  | .ok response => .ok ⟨[⟨"text", stringify response⟩], false⟩
  | .error e => .error ⟨-32603, "API request failed: " ++ e.message⟩

/-- `searchCompanies` end to end (same wrapping policy). -/
def searchCompaniesRun (p : SearchCompaniesParams) (auth : String → Except McpErr Json)
    (stringify : Json → String) : Except McpErr ToolResult :=
  match auth (companiesSearchUrl p) with
  | .ok response => .ok ⟨[⟨"text", stringify response⟩], false⟩
  | .error e => .error ⟨-32603, "API request failed: " ++ e.message⟩

/-- `searchDeals` end to end (no catch block in the source: failures
propagate unchanged). -/
def searchDealsRun (p : SearchDealsParams) (auth : String → Except McpErr Json)
    (stringify : Json → String) : Except McpErr ToolResult :=
  match auth (dealsSearchUrl p) with
  | .ok response => .ok ⟨[⟨"text", stringify response⟩], false⟩
  | .error e => .error e

/-- `exploreOntology` end to end; the second component lists the URLs
actually fetched (empty when resolution fails, so the error path makes no
network call).  All failures are rewrapped as `Ontology search failed:`
by the surrounding catch; a falsy response raises `Empty response from
API` inside the try. -/
def exploreOntologyRun (p : OntologyParams) (auth : String → Except McpErr Json)
    (stringify : Json → String) : Except McpErr ToolResult × List String :=
  match ontologyResolve p with
  | .error e => (.error ⟨-32603, "Ontology search failed: " ++ e.message⟩, [])
  | .ok (apiCategory, term) =>
    let url := ontologySearchUrl apiCategory term
    match auth url with
    | .error e => (.error ⟨-32603, "Ontology search failed: " ++ e.message⟩, [url])
    | .ok response =>
      if jsFalsyJson response then
        (.error ⟨-32603, "Ontology search failed: Empty response from API"⟩, [url])
      else (.ok ⟨[⟨"text", stringify response⟩], false⟩, [url])

/-- The URL of the single-drug record fetch. -/
def getDrugUrl (id : String) : String :=
  "https://api.cortellis.com/api-ws/ws/rs/drugs-v2/drug" ++ "/" ++ id ++ "?fmt=json"

/-- `getDrug` end to end (record lookup; no catch block). -/
def getDrugRun (id : String) (auth : String → Except McpErr Json)
    (stringify : Json → String) : Except McpErr ToolResult :=
  match auth (getDrugUrl id) with
  | .ok response => .ok ⟨[⟨"text", stringify response⟩], false⟩
  | .error e => .error e

end P1

/-! ## Claim-side restatements (spec wording, for refinement claims) -/

/-- Spec wording of the phase-token rule: a token matching `^[A-Z0-9]+$`
yields the double-colon clause; a descriptive token yields the
single-colon clause, quoted when `quoted` is set. -/
def specPhaseToken (field : String) (quoted : Bool) (t : String) : String :=
  if isShortCode t then field ++ "::" ++ t
  else if quoted then field ++ ":\"" ++ t ++ "\""
  else field ++ ":" ++ t

/-- Spec wording of operator detection: scan the original unsplit string
for the first whitespace-delimited `OR`/`AND`; default `OR` when none is
found. -/
def specOperatorOf (s : String) : String :=
  match jsPhaseOperator s with
  | some op => op
  | none => "OR"

/-- Spec wording of the whole phase-expression rule: each (trimmed) token
is formatted by the token rule; multiple tokens are parenthesized and
rejoined with the detected operator. -/
def specPhaseExpr (field : String) (quoted : Bool) (s : String) : String :=
  match (jsSplitPhases s).map jsTrim with
  | [t] => specPhaseToken field quoted t
  | ts =>
    "(" ++ String.intercalate (" " ++ specOperatorOf s ++ " ")
      (ts.map (specPhaseToken field quoted)) ++ ")"

/-- One candidate of the priority order: the named field resolves the
pair exactly when it is present and non-empty. -/
def checkField (name : String) (o : Option String) : Option (String × String) :=
  match o with
  | some v => if v == "" then none else some (name, v)
  | none => none

/-- Spec wording of the ontology resolution: the first non-empty field in
the fixed priority order action, indication, company, drug_name, target,
technology fixes the (category, term) pair. -/
def specPriorityResolve (p : OntologyParams) : Option (String × String) :=
  match checkField "action" p.action with
  | some r => some r
  | none =>
  match checkField "indication" p.indication with
  | some r => some r
  | none =>
  match checkField "company" p.company with
  | some r => some r
  | none =>
  match checkField "drug_name" p.drug_name with
  | some r => some r
  | none =>
  match checkField "target" p.target with
  | some r => some r
  | none => checkField "technology" p.technology

/-- Spec wording of the range-prefix rule: a leading `<` yields operator
`<`, anything else (a stripped `>` or no prefix) yields `>`. -/
def specRangeOp (s : String) : String :=
  if strStartsWith (jsTrim s) "<" then "<" else ">"

/-- Spec wording of the range remainder: the trimmed value with a leading
`<` or `>` stripped. -/
def specRangeRemainder (s : String) : String :=
  let t := jsTrim s
  if strStartsWith t "<" || strStartsWith t ">" then strDrop t 1 else t

/-! ## Helper lemmas -/

lemma fmtPhaseHighest_eq_spec : fmtPhaseHighest = specPhaseToken "phaseHighest" false := by
  funext t
  unfold fmtPhaseHighest specPhaseToken
  by_cases h : isShortCode t = true <;> simp [h]

lemma fmtPhaseTerminated_eq_spec :
    fmtPhaseTerminated = specPhaseToken "phaseTerminated" true := by
  funext t
  unfold fmtPhaseTerminated specPhaseToken
  by_cases h : isShortCode t = true <;> simp [h]

lemma specOperatorOf_getD (s : String) :
    specOperatorOf s = (jsPhaseOperator s).getD "OR" := by
  unfold specOperatorOf
  cases jsPhaseOperator s <;> rfl

lemma jsSplitPhasesAux_ne_nil (fuel : Nat) (cs : List Char) :
    jsSplitPhasesAux fuel cs ≠ [] := by
  cases fuel with
  | zero => simp [jsSplitPhasesAux]
  | succ n =>
    unfold jsSplitPhasesAux
    cases phaseSepSearch cs with
    | none => simp
    | some x => simp

lemma jsSplitPhases_map_ne_nil (s : String) : (jsSplitPhases s).map jsTrim ≠ [] := by
  intro h
  exact jsSplitPhasesAux_ne_nil s.data.length s.data (List.map_eq_nil_iff.mp h)

lemma phaseClause_eq_spec (s : String) :
    phaseClause s = specPhaseExpr "phaseHighest" false s := by
  unfold phaseClause specPhaseExpr
  rw [fmtPhaseHighest_eq_spec, specOperatorOf_getD]
  rcases hl : (jsSplitPhases s).map jsTrim with _ | ⟨t, _ | ⟨t2, ts⟩⟩
  · exact absurd hl (jsSplitPhases_map_ne_nil s)
  · simp
  · simp

lemma phaseTerminatedClause_eq_spec (s : String) :
    phaseTerminatedClause s = specPhaseExpr "phaseTerminated" true s := by
  unfold phaseTerminatedClause specPhaseExpr
  rw [fmtPhaseTerminated_eq_spec, specOperatorOf_getD]
  rcases hl : (jsSplitPhases s).map jsTrim with _ | ⟨t, _ | ⟨t2, ts⟩⟩
  · exact absurd hl (jsSplitPhases_map_ne_nil s)
  · simp
  · simp

/-! ## C1 -/

/-- C1: every `phase` / `phase_terminated` expression of `search_drugs` is
formatted by the claimed rule: a `^[A-Z0-9]+$` token yields the
double-colon clause, a descriptive token the single-colon clause
(unquoted for `phase`, quoted for `phase_terminated`); multiple tokens
are each formatted by the same rule, parenthesized, and rejoined with the
operator detected by scanning the original unsplit string, defaulting to
`OR`; in particular `"C3"` yields `phaseHighest::C3` and `"C3 OR PR"`
yields `(phaseHighest::C3 OR phaseHighest::PR)`. -/
theorem c1_phase_expression_formatting :
    (∀ s, phaseClause s = specPhaseExpr "phaseHighest" false s) ∧
    (∀ s, phaseTerminatedClause s = specPhaseExpr "phaseTerminated" true s) ∧
    phaseClause "C3" = "phaseHighest::C3" ∧
    phaseClause "C3 OR PR" = "(phaseHighest::C3 OR phaseHighest::PR)" ∧
    phaseClause "Phase 2 Clinical" = "phaseHighest:Phase 2 Clinical" ∧
    phaseTerminatedClause "Phase 2 Clinical" = "phaseTerminated:\"Phase 2 Clinical\"" ∧
    phaseTerminatedClause "C3 AND DX" = "(phaseTerminated::C3 AND phaseTerminated::DX)" ∧
    IndexTs.drugsQuery { phase := some "C3" } = "phaseHighest::C3" ∧
    IndexTs.drugsQuery { phase := some "C3 OR PR" } =
      "(phaseHighest::C3 OR phaseHighest::PR)" :=
  ⟨phaseClause_eq_spec, phaseTerminatedClause_eq_spec,
   by decide, by decide, by decide, by decide, by decide, by decide, by decide⟩

/-! ## C3 -/

lemma rawOrStructured_raw (q : String) (st : String) (h : q ≠ "") (o : Option String)
    (ho : o = some q) : rawOrStructured o st = q := by
  subst ho
  simp [rawOrStructured, h]

/-- C3: whenever the raw `query` field is present and non-empty, the built
URL (for each of the three search intents) is determined by `query` and
`offset` alone, with its query component equal to the URL-encoding of the
raw string verbatim; every structured field is ignored. -/
theorem c3_raw_query_bypasses_structured_fields :
    (∀ (p : SearchParams) (q : String), p.query = some q → q ≠ "" →
      P1.drugsSearchUrl p = P1.drugsBaseUrl ++ "?query=" ++ encodeURIComponent q ++
        "&offset=" ++ toString (offsetOr0 p.offset) ++
        "&filtersEnabled=false&fmt=json&hits=100") ∧
    (∀ (p : SearchCompaniesParams) (q : String), p.query = some q → q ≠ "" →
      P1.companiesSearchUrl p = P1.companiesBaseUrl ++ "?query=" ++ encodeURIComponent q ++
        "&offset=" ++ toString (offsetOr0 p.offset) ++ "&hits=100&fmt=json") ∧
    (∀ (p : SearchDealsParams) (q : String), p.query = some q → q ≠ "" →
      P1.dealsSearchUrl p = P1.dealsBaseUrl ++ "?query=" ++ encodeURIComponent q ++
        "&offset=" ++ toString (offsetOr0 p.offset) ++ "&fmt=json&hits=100") := by
  refine ⟨fun p q hq hne => ?_, fun p q hq hne => ?_, fun p q hq hne => ?_⟩
  · unfold P1.drugsSearchUrl P1.drugsQuery
    rw [rawOrStructured_raw q _ hne p.query hq]
  · unfold P1.companiesSearchUrl P1.companiesQuery
    rw [rawOrStructured_raw q _ hne p.query hq]
  · unfold P1.dealsSearchUrl P1.dealsQuery
    rw [rawOrStructured_raw q _ hne p.query hq]

/-- Witness for C3 at concrete inputs: structured fields are present but
do not reach the URL. -/
theorem c3_raw_query_bypasses_structured_fields_witness :
    ({ query := some "pf OR ly", company := some "ignored" } : SearchParams).query
        = some "pf OR ly" ∧
    "pf OR ly" ≠ "" ∧
    P1.drugsSearchUrl { query := some "pf OR ly", company := some "ignored" } =
      P1.drugsBaseUrl ++ "?query=" ++ encodeURIComponent "pf OR ly" ++ "&offset=" ++
      toString (offsetOr0 ({ query := some "pf OR ly", company := some "ignored" }
        : SearchParams).offset) ++ "&filtersEnabled=false&fmt=json&hits=100" ∧
    P1.companiesSearchUrl { query := some "cq", hq_country := some "US" } =
      P1.companiesBaseUrl ++ "?query=" ++ encodeURIComponent "cq" ++ "&offset=" ++
      toString (offsetOr0 ({ query := some "cq", hq_country := some "US" }
        : SearchCompaniesParams).offset) ++ "&hits=100&fmt=json" :=
  ⟨rfl, by decide,
   c3_raw_query_bypasses_structured_fields.1 _ "pf OR ly" rfl (by decide),
   c3_raw_query_bypasses_structured_fields.2.1 _ "cq" rfl (by decide)⟩

/-! ## C4 -/

/-- An optional string field that is absent or empty (JS-falsy). -/
def emptyOpt (o : Option String) : Bool :=
  match o with
  | none => true
  | some s => s == ""

/-- No structured drug-search field is non-empty. -/
def drugsStructuredEmptyBag (p : SearchParams) : Bool :=
  emptyOpt p.company && emptyOpt p.indication && emptyOpt p.action && emptyOpt p.phase &&
  emptyOpt p.phase_terminated && emptyOpt p.technology && emptyOpt p.drug_name &&
  emptyOpt p.country

/-- No structured company-search field is non-empty. -/
def companiesStructuredEmptyBag (p : SearchCompaniesParams) : Bool :=
  emptyOpt p.company_name && emptyOpt p.hq_country && emptyOpt p.deals_count &&
  emptyOpt p.indications && emptyOpt p.actions && emptyOpt p.technologies &&
  emptyOpt p.company_size && emptyOpt p.status

/-- No structured deal-search field is non-empty. -/
def dealsStructuredEmptyBag (p : SearchDealsParams) : Bool :=
  emptyOpt p.dealDrugNamesAll && emptyOpt p.indications &&
  emptyOpt p.dealDrugCompanyPartnerIndications && emptyOpt p.dealPhaseHighestStart &&
  emptyOpt p.dealPhaseHighestNow && emptyOpt p.dealStatus && emptyOpt p.dealSummary &&
  emptyOpt p.dealTitleSummary && emptyOpt p.technologies && emptyOpt p.dealTitle &&
  emptyOpt p.dealType && emptyOpt p.actionsPrimary && emptyOpt p.dealDrugActionsPrimary &&
  emptyOpt p.dealCompanyPrincipal && emptyOpt p.dealCompanyPartner &&
  emptyOpt p.dealCompanyPrincipalHq && emptyOpt p.dealTerritoriesIncluded &&
  emptyOpt p.dealTerritoriesExcluded && emptyOpt p.dealDateStart && emptyOpt p.dealDateEnd &&
  emptyOpt p.dealDateEventMostRecent && emptyOpt p.dealValuePaidToPartnerMaxNumber &&
  emptyOpt p.dealTotalProjectedCurrentAmount && emptyOpt p.dealValuePaidToPartnerMinNumber &&
  emptyOpt p.dealTotalPaidAmount && emptyOpt p.dealValuePaidToPrincipalMaxDisclosureStatus &&
  emptyOpt p.dealValuePaidToPrincipalMaxNumber &&
  emptyOpt p.dealValuePaidToPrincipalMinNumber &&
  emptyOpt p.dealValueProjectedToPartnerMaxNumber &&
  emptyOpt p.dealValueProjectedToPartnerMinNumber &&
  emptyOpt p.dealValueProjectedToPrincipalMaxDisclosureStatus &&
  emptyOpt p.dealValueProjectedToPrincipalMaxNumber &&
  emptyOpt p.dealValueProjectedToPrincipalMinNumber

lemma optClause_empty (o : Option String) (f : String → String) (h : emptyOpt o = true) :
    optClause o f = [] := by
  cases o with
  | none => rfl
  | some s =>
    have hs : s = "" := by simpa [emptyOpt] using h
    subst hs
    rfl

lemma dealsCountPart_empty (o : Option String) (h : emptyOpt o = true) :
    optionalPart (o.bind dealsCountClause) = [] := by
  cases o with
  | none => rfl
  | some s =>
    have hs : s = "" := by simpa [emptyOpt] using h
    subst hs
    decide

lemma companySizePart_empty (o : Option String) (h : emptyOpt o = true) :
    optionalPart (o.bind companySizeClause) = [] := by
  cases o with
  | none => rfl
  | some s =>
    have hs : s = "" := by simpa [emptyOpt] using h
    subst hs
    decide

lemma rawOrStructured_empty (o : Option String) (st : String) (h : emptyOpt o = true) :
    rawOrStructured o st = st := by
  cases o with
  | none => rfl
  | some s =>
    have hs : s = "" := by simpa [emptyOpt] using h
    subst hs
    rfl

/-- C4: for each search intent (drugs, companies, deals), a bag with no
raw query and no non-empty structured field builds the wildcard query
`*`. -/
theorem c4_empty_bag_builds_wildcard :
    (∀ p : SearchParams, emptyOpt p.query = true → drugsStructuredEmptyBag p = true →
      P1.drugsQuery p = "*") ∧
    (∀ p : SearchCompaniesParams, emptyOpt p.query = true →
      companiesStructuredEmptyBag p = true → P1.companiesQuery p = "*") ∧
    (∀ p : SearchDealsParams, emptyOpt p.query = true → dealsStructuredEmptyBag p = true →
      P1.dealsQuery p = "*") := by
  refine ⟨fun p hq h => ?_, fun p hq h => ?_, fun p hq h => ?_⟩
  · simp only [drugsStructuredEmptyBag, Bool.and_eq_true] at h
    rw [P1.drugsQuery, rawOrStructured_empty _ _ hq]
    simp [P1.drugsStructured, P1.drugsLinkedParts, P1.drugsOtherParts, optClause_empty, h]
  · simp only [companiesStructuredEmptyBag, Bool.and_eq_true] at h
    rw [P1.companiesQuery, rawOrStructured_empty _ _ hq]
    simp [P1.companiesStructured, P1.companiesParts, optClause_empty, dealsCountPart_empty,
      companySizePart_empty, h]
  · simp only [dealsStructuredEmptyBag, Bool.and_eq_true] at h
    rw [P1.dealsQuery, rawOrStructured_empty _ _ hq]
    simp [P1.dealsStructured, P1.dealsParts, optClause_empty, h]

/-- Witness for C4: the all-defaults bags. -/
theorem c4_empty_bag_builds_wildcard_witness :
    emptyOpt ({} : SearchParams).query = true ∧
    drugsStructuredEmptyBag {} = true ∧
    companiesStructuredEmptyBag {} = true ∧
    dealsStructuredEmptyBag {} = true ∧
    P1.drugsQuery {} = "*" ∧ P1.companiesQuery {} = "*" ∧ P1.dealsQuery {} = "*" :=
  ⟨by decide, by decide, by decide, by decide,
   c4_empty_bag_builds_wildcard.1 {} (by decide) (by decide),
   c4_empty_bag_builds_wildcard.2.1 {} (by decide) (by decide),
   c4_empty_bag_builds_wildcard.2.2 {} (by decide) (by decide)⟩

/-! ## C5 -/

lemma checkField_of_truthy (n : String) (o : Option String) (h : truthyStr o = true) :
    checkField n o = some (n, o.getD "") := by
  cases o with
  | none => simp [truthyStr] at h
  | some v =>
    have hv : (v == "") = false := by simpa [truthyStr] using h
    simp [checkField, hv]

lemma checkField_of_falsy (n : String) (o : Option String) (h : truthyStr o = false) :
    checkField n o = none := by
  cases o with
  | none => rfl
  | some v =>
    have hv : (v == "") = true := by simpa [truthyStr] using h
    simp [checkField, hv]

/-- The resolution of `exploreOntology` agrees with the spec's
priority-order description whenever `category` and `term` are not both
given: the first non-empty single-purpose field fixes the pair, the
category goes through `categoryMap`, and unresolvable bags or unmapped
categories fail with the matching `McpError`. -/
lemma ontologyResolve_eq_priority (p : OntologyParams)
    (h : ¬(truthyStr p.category = true ∧ truthyStr p.term = true)) :
    ontologyResolve p =
      (match specPriorityResolve p with
       | none => .error ⟨-32603, "Category and search term are required"⟩
       | some (c, t) =>
         match categoryMap c with
         | none => .error ⟨-32603, "Invalid category: " ++ c⟩
         | some apiCategory => .ok (apiCategory, t)) := by
  have hcond : (!truthyStr p.category || !truthyStr p.term) = true := by
    cases hc : truthyStr p.category <;> cases ht : truthyStr p.term <;> simp_all
  cases ha : truthyStr p.action with
  | true =>
    obtain ⟨v, hv, hne⟩ : ∃ v, p.action = some v ∧ (v == "") = false := by
      cases hav : p.action with
      | none => rw [hav] at ha; simp [truthyStr] at ha
      | some v => exact ⟨v, rfl, by rw [hav] at ha; simpa [truthyStr] using ha⟩
    have tc : truthyStr (some "action") = true := by decide
    have tv : truthyStr (some v) = true := by simp [truthyStr, hne]
    simp [ontologyResolve, ontologyResolve.ontologyChain, specPriorityResolve,
      hcond, ha, hv, hne, checkField_of_truthy, tc, tv]
  | false =>
  cases hi : truthyStr p.indication with
  | true =>
    obtain ⟨v, hv, hne⟩ : ∃ v, p.indication = some v ∧ (v == "") = false := by
      cases hav : p.indication with
      | none => rw [hav] at hi; simp [truthyStr] at hi
      | some v => exact ⟨v, rfl, by rw [hav] at hi; simpa [truthyStr] using hi⟩
    have tc : truthyStr (some "indication") = true := by decide
    have tv : truthyStr (some v) = true := by simp [truthyStr, hne]
    simp [ontologyResolve, ontologyResolve.ontologyChain, specPriorityResolve,
      hcond, ha, hi, hv, hne, checkField_of_truthy, checkField_of_falsy, tc, tv]
  | false =>
  cases hco : truthyStr p.company with
  | true =>
    obtain ⟨v, hv, hne⟩ : ∃ v, p.company = some v ∧ (v == "") = false := by
      cases hav : p.company with
      | none => rw [hav] at hco; simp [truthyStr] at hco
      | some v => exact ⟨v, rfl, by rw [hav] at hco; simpa [truthyStr] using hco⟩
    have tc : truthyStr (some "company") = true := by decide
    have tv : truthyStr (some v) = true := by simp [truthyStr, hne]
    simp [ontologyResolve, ontologyResolve.ontologyChain, specPriorityResolve,
      hcond, ha, hi, hco, hv, hne, checkField_of_truthy, checkField_of_falsy, tc, tv]
  | false =>
  cases hd : truthyStr p.drug_name with
  | true =>
    obtain ⟨v, hv, hne⟩ : ∃ v, p.drug_name = some v ∧ (v == "") = false := by
      cases hav : p.drug_name with
      | none => rw [hav] at hd; simp [truthyStr] at hd
      | some v => exact ⟨v, rfl, by rw [hav] at hd; simpa [truthyStr] using hd⟩
    have tc : truthyStr (some "drug_name") = true := by decide
    have tv : truthyStr (some v) = true := by simp [truthyStr, hne]
    simp [ontologyResolve, ontologyResolve.ontologyChain, specPriorityResolve,
      hcond, ha, hi, hco, hd, hv, hne, checkField_of_truthy, checkField_of_falsy, tc, tv]
  | false =>
  cases hta : truthyStr p.target with
  | true =>
    obtain ⟨v, hv, hne⟩ : ∃ v, p.target = some v ∧ (v == "") = false := by
      cases hav : p.target with
      | none => rw [hav] at hta; simp [truthyStr] at hta
      | some v => exact ⟨v, rfl, by rw [hav] at hta; simpa [truthyStr] using hta⟩
    have tc : truthyStr (some "target") = true := by decide
    have tv : truthyStr (some v) = true := by simp [truthyStr, hne]
    simp [ontologyResolve, ontologyResolve.ontologyChain, specPriorityResolve,
      hcond, ha, hi, hco, hd, hta, hv, hne, checkField_of_truthy, checkField_of_falsy, tc, tv]
  | false =>
  cases hte : truthyStr p.technology with
  | true =>
    obtain ⟨v, hv, hne⟩ : ∃ v, p.technology = some v ∧ (v == "") = false := by
      cases hav : p.technology with
      | none => rw [hav] at hte; simp [truthyStr] at hte
      | some v => exact ⟨v, rfl, by rw [hav] at hte; simpa [truthyStr] using hte⟩
    have tc : truthyStr (some "technology") = true := by decide
    have tv : truthyStr (some v) = true := by simp [truthyStr, hne]
    simp [ontologyResolve, ontologyResolve.ontologyChain, specPriorityResolve,
      hcond, ha, hi, hco, hd, hta, hte, hv, hne, checkField_of_truthy, checkField_of_falsy, tc, tv]
  | false =>
    simp [ontologyResolve, ontologyResolve.ontologyChain, specPriorityResolve,
      hcond, ha, hi, hco, hd, hta, hte, checkField_of_falsy]

/-- C5: when `category` and `term` are not both given, `explore_ontology`
resolves the pair from the first non-empty field in the priority order
action, indication, company, drug_name, target, technology; the category
is mapped through the fixed lookup table to the URL path segment; an
unresolvable bag or an unmapped category fails with an error and no
network request is issued; and a bag with only `drug_name:
"semaglutide"` resolves to category `drug`, term `semaglutide`. -/
theorem c5_ontology_resolution :
    (∀ p : OntologyParams, ¬(truthyStr p.category = true ∧ truthyStr p.term = true) →
      ontologyResolve p =
        (match specPriorityResolve p with
         | none => .error ⟨-32603, "Category and search term are required"⟩
         | some (c, t) =>
           match categoryMap c with
           | none => .error ⟨-32603, "Invalid category: " ++ c⟩
           | some apiCategory => .ok (apiCategory, t))) ∧
    (∀ (p : OntologyParams) (auth : String → Except McpErr Json)
       (stringify : Json → String) (e : McpErr), ontologyResolve p = .error e →
      P1.exploreOntologyRun p auth stringify =
        (.error ⟨-32603, "Ontology search failed: " ++ e.message⟩, [])) ∧
    (∀ (p : OntologyParams) (auth : String → Except McpErr Json)
       (stringify : Json → String) (apiCategory term : String),
      ontologyResolve p = .ok (apiCategory, term) →
      (P1.exploreOntologyRun p auth stringify).2 = [ontologySearchUrl apiCategory term]) ∧
    ontologyResolve { drug_name := some "semaglutide" } = .ok ("drug", "semaglutide") := by
  refine ⟨ontologyResolve_eq_priority, fun p auth stringify e he => ?_,
    fun p auth stringify apiCategory term hok => ?_, rfl⟩
  · unfold P1.exploreOntologyRun
    rw [he]
  · unfold P1.exploreOntologyRun
    rw [hok]
    cases hA : auth (ontologySearchUrl apiCategory term) with
    | error e => simp [hA]
    | ok j =>
      by_cases hj : jsFalsyJson j = true <;> simp [hA, hj]

/-- Witness for C5: the semaglutide example and the no-network error
path, at closed inputs. -/
theorem c5_ontology_resolution_witness :
    (¬(truthyStr ({ drug_name := some "semaglutide" } : OntologyParams).category = true ∧
       truthyStr ({ drug_name := some "semaglutide" } : OntologyParams).term = true)) ∧
    ontologyResolve { drug_name := some "semaglutide" } =
      (match specPriorityResolve { drug_name := some "semaglutide" } with
       | none => .error ⟨-32603, "Category and search term are required"⟩
       | some (c, t) =>
         match categoryMap c with
         | none => .error ⟨-32603, "Invalid category: " ++ c⟩
         | some apiCategory => .ok (apiCategory, t)) ∧
    ontologyResolve ({} : OntologyParams) =
      .error ⟨-32603, "Category and search term are required"⟩ ∧
    P1.exploreOntologyRun ({} : OntologyParams) (fun _ => .ok Json.null) (fun _ => "") =
      (.error ⟨-32603, "Ontology search failed: Category and search term are required"⟩,
        []) ∧
    (P1.exploreOntologyRun { drug_name := some "semaglutide" }
        (fun _ => .ok (Json.str "hit")) (fun _ => "")).2 =
      [ontologySearchUrl "drug" "semaglutide"] :=
  ⟨by decide, c5_ontology_resolution.1 _ (by decide), rfl,
   c5_ontology_resolution.2.1 {} (fun _ => .ok Json.null) (fun _ => "")
     ⟨-32603, "Category and search term are required"⟩ rfl,
   c5_ontology_resolution.2.2.1 _ (fun _ => .ok (Json.str "hit")) (fun _ => "")
     "drug" "semaglutide" rfl⟩

/-! ## C6 / C7 range-clause lemmas -/

lemma dealsCountClause_of_parse (s : String) (n : Int)
    (h : jsParseInt (specRangeRemainder s) = some n) :
    dealsCountClause s =
      some ("companyDealsCount:RANGE(" ++ specRangeOp s ++ toString n ++ ")") := by
  unfold specRangeRemainder at h
  by_cases h1 : strStartsWith (jsTrim s) "<"
  · simp [h1] at h
    simp [dealsCountClause, specRangeOp, h1, h]
  · by_cases h2 : strStartsWith (jsTrim s) ">"
    · simp [h1, h2] at h
      simp [dealsCountClause, specRangeOp, h1, h2, h]
    · simp [h1, h2] at h
      simp [dealsCountClause, specRangeOp, h1, h2, h]

lemma dealsCountClause_of_nan (s : String)
    (h : jsParseInt (specRangeRemainder s) = none) : dealsCountClause s = none := by
  unfold specRangeRemainder at h
  by_cases h1 : strStartsWith (jsTrim s) "<"
  · simp [h1] at h
    simp [dealsCountClause, h1, h]
  · by_cases h2 : strStartsWith (jsTrim s) ">"
    · simp [h1, h2] at h
      simp [dealsCountClause, h1, h2, h]
    · simp [h1, h2] at h
      simp [dealsCountClause, h1, h2, h]

lemma companySizeClause_of_parse (s : String) (v : JsNum)
    (h : jsParseFloat (specRangeRemainder s) = some v) :
    companySizeClause s =
      some ("companyCategoryCompanySize:RANGE(" ++ specRangeOp s ++
        jsNumToString (v.scale 1000000000) ++ ")") := by
  unfold specRangeRemainder at h
  by_cases h1 : strStartsWith (jsTrim s) "<"
  · simp [h1] at h
    simp [companySizeClause, specRangeOp, h1, h]
  · by_cases h2 : strStartsWith (jsTrim s) ">"
    · simp [h1, h2] at h
      simp [companySizeClause, specRangeOp, h1, h2, h]
    · simp [h1, h2] at h
      simp [companySizeClause, specRangeOp, h1, h2, h]

lemma companySizeClause_of_nan (s : String)
    (h : jsParseFloat (specRangeRemainder s) = none) : companySizeClause s = none := by
  unfold specRangeRemainder at h
  by_cases h1 : strStartsWith (jsTrim s) "<"
  · simp [h1] at h
    simp [companySizeClause, h1, h]
  · by_cases h2 : strStartsWith (jsTrim s) ">"
    · simp [h1, h2] at h
      simp [companySizeClause, h1, h2, h]
    · simp [h1, h2] at h
      simp [companySizeClause, h1, h2, h]

/-! ## C6 -/

/-- C6: for `deals_count` and `company_size`, a leading `<` yields range
operator `<`, a leading `>` is stripped and yields `>`, and no prefix
defaults to `>` with the value used as-is (so `">50"` and `"50"` emit the
identical `companyDealsCount:RANGE(>50)` clause); a non-numeric remainder
silently omits the clause from the query, raising no error. -/
theorem c6_range_prefix_parsing :
    (∀ (s : String) (n : Int), jsParseInt (specRangeRemainder s) = some n →
      dealsCountClause s =
        some ("companyDealsCount:RANGE(" ++ specRangeOp s ++ toString n ++ ")")) ∧
    (∀ s : String, jsParseInt (specRangeRemainder s) = none → dealsCountClause s = none) ∧
    (∀ (s : String) (v : JsNum), jsParseFloat (specRangeRemainder s) = some v →
      companySizeClause s =
        some ("companyCategoryCompanySize:RANGE(" ++ specRangeOp s ++
          jsNumToString (v.scale 1000000000) ++ ")")) ∧
    (∀ s : String, jsParseFloat (specRangeRemainder s) = none →
      companySizeClause s = none) ∧
    dealsCountClause ">50" = some "companyDealsCount:RANGE(>50)" ∧
    dealsCountClause "50" = some "companyDealsCount:RANGE(>50)" ∧
    (∀ (p : SearchCompaniesParams) (s : String), p.deals_count = some s →
      jsParseInt (specRangeRemainder s) = none →
      P1.companiesParts p = P1.companiesParts { p with deals_count := none }) ∧
    (∀ (p : SearchCompaniesParams) (s : String), p.company_size = some s →
      jsParseFloat (specRangeRemainder s) = none →
      P1.companiesParts p = P1.companiesParts { p with company_size := none }) := by
  refine ⟨dealsCountClause_of_parse, dealsCountClause_of_nan, companySizeClause_of_parse,
    companySizeClause_of_nan, by decide, by decide, fun p s hps hp => ?_,
    fun p s hps hp => ?_⟩
  · simp [P1.companiesParts, hps, dealsCountClause_of_nan s hp]
  · simp [P1.companiesParts, hps, companySizeClause_of_nan s hp]

/-- Witness for C6 at closed inputs: numeric, stripped-prefix and
non-numeric values. -/
theorem c6_range_prefix_parsing_witness :
    jsParseInt (specRangeRemainder "<50") = some 50 ∧
    dealsCountClause "<50" = some ("companyDealsCount:RANGE(" ++ specRangeOp "<50" ++
      toString (50 : Int) ++ ")") ∧
    jsParseInt (specRangeRemainder ">abc") = none ∧
    dealsCountClause ">abc" = none ∧
    jsParseFloat (specRangeRemainder "oops") = none ∧
    companySizeClause "oops" = none ∧
    ({ deals_count := some ">abc" } : SearchCompaniesParams).deals_count = some ">abc" ∧
    P1.companiesParts { deals_count := some ">abc" } =
      P1.companiesParts { ({ deals_count := some ">abc" } : SearchCompaniesParams) with
        deals_count := none } :=
  ⟨by decide, c6_range_prefix_parsing.1 "<50" 50 (by decide), by decide,
   c6_range_prefix_parsing.2.1 ">abc" (by decide), by decide,
   c6_range_prefix_parsing.2.2.2.1 "oops" (by decide), rfl,
   c6_range_prefix_parsing.2.2.2.2.2.2.1 _ ">abc" rfl (by decide)⟩

/-! ## C7 -/

/-- C7: every numeric `company_size` is scaled by exactly 1,000,000,000
before emission — the emitted value's exact rational value is the parsed
value times 1,000,000,000 — while `deals_count` is emitted unscaled;
`"<2"` emits operator `<` with value `2000000000`, `"2"` emits operator
`>` with value `2000000000`. -/
theorem c7_company_size_scaled_by_billion :
    (∀ (s : String) (d : Dec), jsParseFloat (specRangeRemainder s) = some (JsNum.num d) →
      companySizeClause s =
        some ("companyCategoryCompanySize:RANGE(" ++ specRangeOp s ++
          jsNumToString ((JsNum.num d).scale 1000000000) ++ ")")) ∧
    (∀ d : Dec, Dec.toRat ⟨d.m * (1000000000 : Nat), d.e⟩ = d.toRat * 1000000000) ∧
    (∀ (s : String) (n : Int), jsParseInt (specRangeRemainder s) = some n →
      dealsCountClause s =
        some ("companyDealsCount:RANGE(" ++ specRangeOp s ++ toString n ++ ")")) ∧
    companySizeClause "<2" = some "companyCategoryCompanySize:RANGE(<2000000000)" ∧
    companySizeClause "2" = some "companyCategoryCompanySize:RANGE(>2000000000)" := by
  refine ⟨fun s d h => companySizeClause_of_parse s (JsNum.num d) h, fun d => ?_,
    dealsCountClause_of_parse, by decide, by decide⟩
  unfold Dec.toRat
  push_cast
  ring

/-- Witness for C7: the billions scaling at closed inputs. -/
theorem c7_company_size_scaled_by_billion_witness :
    jsParseFloat (specRangeRemainder "<2.5") = some (JsNum.num ⟨25, -1⟩) ∧
    companySizeClause "<2.5" =
      some ("companyCategoryCompanySize:RANGE(" ++ specRangeOp "<2.5" ++
        jsNumToString ((JsNum.num ⟨25, -1⟩).scale 1000000000) ++ ")") ∧
    jsParseInt (specRangeRemainder "7") = some 7 ∧
    dealsCountClause "7" =
      some ("companyDealsCount:RANGE(" ++ specRangeOp "7" ++ toString (7 : Int) ++ ")") :=
  ⟨by decide, c7_company_size_scaled_by_billion.1 "<2.5" ⟨25, -1⟩ (by decide),
   by decide, c7_company_size_scaled_by_billion.2.2.1 "7" 7 (by decide)⟩

/-! ## C10 -/

lemma digit_bounds {c : Char} (h : isDigitChar c = true) :
    48 ≤ c.toNat ∧ c.toNat ≤ 57 := by
  simpa [isDigitChar, Bool.and_eq_true, decide_eq_true_eq] using h

lemma digit_not_ws {c : Char} (h : isDigitChar c = true) : isJsWs c = false := by
  have hb := digit_bounds h
  simp only [isJsWs, Bool.or_eq_false_iff, Bool.and_eq_false_iff, beq_eq_false_iff_ne,
    ne_eq, decide_eq_false_iff_not, not_le]
  omega

lemma digit_toNat_ne {c : Char} (h : isDigitChar c = true) (k : Nat)
    (hk : k < 48 ∨ 57 < k) : (c.toNat == k) = false := by
  have hb := digit_bounds h
  simp only [beq_eq_false_iff_ne, ne_eq]
  omega

lemma takeWhile_append_sep (p : Char → Bool) (a : List Char) (sep : Char) (b : List Char)
    (ha : a.all p = true) (hsep : p sep = false) :
    (a ++ sep :: b).takeWhile p = a ∧ (a ++ sep :: b).dropWhile p = sep :: b := by
  induction a with
  | nil => simp [List.takeWhile_cons, List.dropWhile_cons, hsep]
  | cons c cs ih =>
    rw [List.all_cons, Bool.and_eq_true] at ha
    simp [List.takeWhile_cons, List.dropWhile_cons, ha.1, ih ha.2]

lemma takeWhile_all (p : Char → Bool) (b : List Char) (hb : b.all p = true) :
    b.takeWhile p = b ∧ b.dropWhile p = [] := by
  induction b with
  | nil => simp
  | cons c cs ih =>
    rw [List.all_cons, Bool.and_eq_true] at hb
    simp [List.takeWhile_cons, List.dropWhile_cons, hb.1, ih hb.2]

/-- `parseInt` on a digit string with a fractional part reads only the
digits before the dot. -/
lemma jsParseInt_digits_dot (a b : List Char) (hne : a ≠ [])
    (ha : a.all isDigitChar = true) (_hb : b.all isDigitChar = true) :
    jsParseInt (String.mk (a ++ Char.ofNat 46 :: b)) = some (natOfDigits a) := by
  rcases a with _ | ⟨c, cs⟩
  · exact absurd rfl hne
  · rw [List.all_cons, Bool.and_eq_true] at ha
    have hdot : isDigitChar (Char.ofNat 46) = false := by decide
    have htk := takeWhile_append_sep isDigitChar (c :: cs) (Char.ofNat 46) b
      (by rw [List.all_cons, Bool.and_eq_true]; exact ha) hdot
    have h43 := digit_toNat_ne ha.1 43 (by omega)
    have h45 := digit_toNat_ne ha.1 45 (by omega)
    cases cs with
    | nil =>
      simp only [String.mk, List.cons_append, List.nil_append, jsParseInt,
        List.dropWhile_cons, digit_not_ws ha.1, if_false, Bool.false_eq_true,
        jsSignSplit, h43, h45]
      have h46 : ((Char.ofNat 46).toNat == 120 || (Char.ofNat 46).toNat == 88) = false := by
        decide
      simp only [h46, Bool.and_false, Bool.false_eq_true, if_false]
      simp only [List.cons_append, List.nil_append] at htk
      rw [htk.1]
      simp
    | cons c2 cs2 =>
      have ha2 : isDigitChar c2 = true := by
        rw [List.all_cons, Bool.and_eq_true] at ha
        exact ha.2.1
      have h120 := digit_toNat_ne ha2 120 (by omega)
      have h88 := digit_toNat_ne ha2 88 (by omega)
      simp only [String.mk, List.cons_append, jsParseInt, List.dropWhile_cons,
        digit_not_ws ha.1, if_false, Bool.false_eq_true, jsSignSplit, h43, h45]
      simp only [h120, h88, Bool.or_self, Bool.and_false, Bool.false_eq_true, if_false]
      simp only [List.cons_append] at htk
      rw [htk.1]
      simp [List.isEmpty, one_mul]

/-- `parseFloat` on the same input keeps the fractional digits exactly. -/
lemma jsParseFloat_digits_dot (a b : List Char) (hnea : a ≠ []) (hneb : b ≠ [])
    (ha : a.all isDigitChar = true) (hb : b.all isDigitChar = true) :
    jsParseFloat (String.mk (a ++ Char.ofNat 46 :: b)) =
      some (JsNum.num ⟨((natOfDigits a * 10 ^ b.length + natOfDigits b : Nat) : Int),
        -(b.length : Int)⟩) := by
  rcases a with _ | ⟨c, cs⟩
  · exact absurd rfl hnea
  · rw [List.all_cons, Bool.and_eq_true] at ha
    have hdot : isDigitChar (Char.ofNat 46) = false := by decide
    have htk := takeWhile_append_sep isDigitChar (c :: cs) (Char.ofNat 46) b
      (by rw [List.all_cons, Bool.and_eq_true]; exact ha) hdot
    have htb := takeWhile_all isDigitChar b hb
    have h43 := digit_toNat_ne ha.1 43 (by omega)
    have h45 := digit_toNat_ne ha.1 45 (by omega)
    have hInf : ("Infinity".data.isPrefixOf (c :: (cs ++ Char.ofNat 46 :: b))) = false := by
      show (('I' == c) && _) = false
      have hIc : ('I' == c) = false := by
        rw [beq_eq_false_iff_ne]
        intro he
        rw [← he] at ha
        simp [isDigitChar] at ha
      simp [hIc]
    have hws : (c :: (cs ++ Char.ofNat 46 :: b)).dropWhile isJsWs =
        c :: (cs ++ Char.ofNat 46 :: b) := by
      rw [List.dropWhile_cons, digit_not_ws ha.1]
      simp
    simp only [String.mk, List.cons_append, jsParseFloat]
    simp only [hws, jsSignSplit, h43, h45, Bool.false_eq_true, if_false, hInf]
    simp only [List.cons_append] at htk
    simp only [htk.1, htk.2]
    have h46 : ((Char.ofNat 46).toNat == 46) = true := by decide
    simp only [h46, if_true, htb.1, htb.2]
    rcases b with _ | ⟨d, ds⟩
    · exact absurd rfl hneb
    · simp [List.isEmpty, one_mul]

/-- C10: the two range parsers of `search_companies` treat fractional
input differently — `deals_count` goes through `parseInt`, which reads
only the digits before the dot (so `"50.9"` silently becomes
`RANGE(>50)`), while `company_size` goes through `parseFloat`, which
keeps the fraction before the billions scaling (so `"2.5"` becomes
`RANGE(>2500000000)`). -/
theorem c10_fractional_values_parsed_differently :
    dealsCountClause "50.9" = some "companyDealsCount:RANGE(>50)" ∧
    companySizeClause "2.5" = some "companyCategoryCompanySize:RANGE(>2500000000)" ∧
    jsParseInt "50.9" = some 50 ∧
    jsParseFloat "50.9" = some (JsNum.num ⟨509, -1⟩) ∧
    (∀ a b : List Char, a ≠ [] → a.all isDigitChar = true → b.all isDigitChar = true →
      jsParseInt (String.mk (a ++ Char.ofNat 46 :: b)) = some (natOfDigits a)) ∧
    (∀ a b : List Char, a ≠ [] → b ≠ [] → a.all isDigitChar = true →
      b.all isDigitChar = true →
      jsParseFloat (String.mk (a ++ Char.ofNat 46 :: b)) =
        some (JsNum.num ⟨((natOfDigits a * 10 ^ b.length + natOfDigits b : Nat) : Int),
          -(b.length : Int)⟩)) :=
  ⟨by decide, by decide, by decide, by decide,
   fun a b hne ha hb => jsParseInt_digits_dot a b hne ha hb,
   fun a b hnea hneb ha hb => jsParseFloat_digits_dot a b hnea hneb ha hb⟩

/-- Witness for C10's general parsing facts at a closed input. -/
theorem c10_fractional_values_parsed_differently_witness :
    (['7'] : List Char) ≠ [] ∧ (['2', '5'] : List Char) ≠ [] ∧
    (['7'] : List Char).all isDigitChar = true ∧
    (['2', '5'] : List Char).all isDigitChar = true ∧
    jsParseInt (String.mk (['7'] ++ Char.ofNat 46 :: ['2', '5'])) =
      some (natOfDigits ['7']) ∧
    jsParseFloat (String.mk (['7'] ++ Char.ofNat 46 :: ['2', '5'])) =
      some (JsNum.num ⟨((natOfDigits ['7'] * 10 ^ (['2', '5'] : List Char).length +
        natOfDigits ['2', '5'] : Nat) : Int), -((['2', '5'] : List Char).length : Int)⟩) :=
  ⟨by decide, by decide, by decide, by decide,
   c10_fractional_values_parsed_differently.2.2.2.2.1 ['7'] ['2', '5'] (by decide)
     (by decide) (by decide),
   c10_fractional_values_parsed_differently.2.2.2.2.2 ['7'] ['2', '5'] (by decide)
     (by decide) (by decide) (by decide)⟩

/-! ## C2 -/

/-- A closed no-qop header used to exhibit the absent fields. -/
def noQopHeaderExample : String :=
  digestAuthHeader (fun _ => "x") "u" "p" "GET" "http://h" "r" "n" none "cn"

/-- A closed with-qop header used for contrast. -/
def qopHeaderExample : String :=
  digestAuthHeader (fun _ => "x") "u" "p" "GET" "http://h" "r" "n" (some "auth") "cn"

/-- Substring occurrence test (for checking which fields a header
carries). -/
def strOccurs (needle hay : String) : Bool :=
  go needle.data hay.data
where
  go (pat : List Char) : List Char → Bool
    | [] => pat.isPrefixOf []
    | c :: rest => pat.isPrefixOf (c :: rest) || go pat rest

/-- C2: with a `qop` in the challenge, the `response` field sent on the
second request is `MD5(MD5(user:realm:pass):nonce:00000001:cnonce:qop:
MD5(method:url))` for the generated `cnonce`; without `qop` it is the
RFC 2069 form `MD5(MD5(user:realm:pass):nonce:MD5(method:url))` and the
header carries no `qop`, `nc`, or `cnonce` fields (exhibited on a closed
header: the with-qop header contains each of those fields, the no-qop
header none of them). -/
theorem c2_digest_response_formulas :
    (∀ (md5 : String → String) (u p m url realm nonce cnonce q : String),
      digestResponseValue md5 u p m url realm nonce (some q) cnonce =
        md5 (md5 (u ++ ":" ++ realm ++ ":" ++ p) ++ ":" ++ nonce ++ ":" ++ "00000001" ++
          ":" ++ cnonce ++ ":" ++ q ++ ":" ++ md5 (m ++ ":" ++ url))) ∧
    (∀ (md5 : String → String) (u p m url realm nonce cnonce : String),
      digestResponseValue md5 u p m url realm nonce none cnonce =
        md5 (md5 (u ++ ":" ++ realm ++ ":" ++ p) ++ ":" ++ nonce ++ ":" ++
          md5 (m ++ ":" ++ url))) ∧
    (∀ (md5 : String → String) (u p m url realm nonce cnonce : String),
      digestAuthHeader md5 u p m url realm nonce none cnonce =
        "Digest username=\"" ++ u ++ "\", realm=\"" ++ realm ++ "\", nonce=\"" ++ nonce ++
        "\", uri=\"" ++ url ++ "\", response=\"" ++
        digestResponseValue md5 u p m url realm nonce none cnonce ++
        "\", algorithm=\"MD5\"") ∧
    strOccurs "qop=" noQopHeaderExample = false ∧
    strOccurs "nc=" noQopHeaderExample = false ∧
    strOccurs "cnonce=" noQopHeaderExample = false ∧
    strOccurs "qop=" qopHeaderExample = true ∧
    strOccurs "nc=" qopHeaderExample = true ∧
    strOccurs "cnonce=" qopHeaderExample = true ∧
    strOccurs "response=" noQopHeaderExample = true ∧
    (∀ (md5 : String → String) (jparse : String → Option Json)
       (cnonce username password url method : String) (resp1 resp2 : HttpResponse)
       (authHeader realm nonce q : String),
      headersGet resp1.headers "www-authenticate" = some authHeader →
      jsMatchQuoted "realm" authHeader = some realm →
      jsMatchQuoted "nonce" authHeader = some nonce →
      jsMatchQuoted "qop" authHeader = some q →
      (digestAuthRun md5 jparse cnonce username password url method resp1 resp2).2 =
        [⟨url, method, none⟩,
         ⟨url, method, some (digestAuthHeader md5 username password method url realm nonce
           (some q) cnonce)⟩]) := by
  refine ⟨fun md5 u p m url realm nonce cnonce q => rfl,
    fun md5 u p m url realm nonce cnonce => rfl,
    fun md5 u p m url realm nonce cnonce => rfl,
    by decide, by decide, by decide, by decide, by decide, by decide, by decide,
    fun md5 jparse cnonce username password url method resp1 resp2
      authHeader realm nonce q hh hr hn hq => ?_⟩
  unfold digestAuthRun
  rw [hh]
  simp only [hr, hn, hq]
  cases hok : resp2.ok with
  | false => simp
  | true =>
    cases hjp : jparse resp2.body with
    | none => simp [hjp]
    | some j => by_cases hj : jsFalsyJson j = true <;> simp [hjp, hj]

/-- Witness for C2's run-level conjunct at a closed challenge. -/
theorem c2_digest_response_formulas_witness :
    headersGet [("WWW-Authenticate",
        "Digest realm=\"r\", nonce=\"n\", qop=\"auth\"")] "www-authenticate" =
      some "Digest realm=\"r\", nonce=\"n\", qop=\"auth\"" ∧
    jsMatchQuoted "realm" "Digest realm=\"r\", nonce=\"n\", qop=\"auth\"" = some "r" ∧
    jsMatchQuoted "nonce" "Digest realm=\"r\", nonce=\"n\", qop=\"auth\"" = some "n" ∧
    jsMatchQuoted "qop" "Digest realm=\"r\", nonce=\"n\", qop=\"auth\"" = some "auth" ∧
    (digestAuthRun (fun _ => "x") (fun _ => some (Json.str "ok")) "cn" "u" "p"
        "http://h" "GET"
        { headers := [("WWW-Authenticate", "Digest realm=\"r\", nonce=\"n\", qop=\"auth\"")] }
        { body := "{}" }).2 =
      [⟨"http://h", "GET", none⟩,
       ⟨"http://h", "GET", some (digestAuthHeader (fun _ => "x") "u" "p" "GET" "http://h"
         "r" "n" (some "auth") "cn")⟩] :=
  ⟨by decide, by decide, by decide, by decide,
   c2_digest_response_formulas.2.2.2.2.2.2.2.2.2.2 (fun _ => "x")
     (fun _ => some (Json.str "ok")) "cn" "u" "p" "http://h" "GET"
     { headers := [("WWW-Authenticate", "Digest realm=\"r\", nonce=\"n\", qop=\"auth\"")] }
     { body := "{}" }
     "Digest realm=\"r\", nonce=\"n\", qop=\"auth\"" "r" "n" "auth"
     (by decide) (by decide) (by decide) (by decide)⟩

/-! ## C8 -/

/-- C8: a first-phase response without a `WWW-Authenticate` header makes
`digestAuth` fail with the challenge-missing error after issuing exactly
one request — the unauthenticated first one — regardless of the second
response the transport would have produced. -/
theorem c8_missing_challenge_no_second_request :
    ∀ (md5 : String → String) (jparse : String → Option Json)
      (cnonce username password url method : String) (resp1 resp2 : HttpResponse),
      headersGet resp1.headers "www-authenticate" = none →
      digestAuthRun md5 jparse cnonce username password url method resp1 resp2 =
        (.error ⟨-32603, "No WWW-Authenticate header received"⟩,
         [⟨url, method, none⟩]) := by
  intro md5 jparse cnonce username password url method resp1 resp2 h
  unfold digestAuthRun
  rw [h]

/-- Witness for C8 at a closed transport with no challenge header. -/
theorem c8_missing_challenge_no_second_request_witness :
    headersGet ({ headers := [("Content-Type", "text/html")] } : HttpResponse).headers
      "www-authenticate" = none ∧
    digestAuthRun (fun _ => "x") (fun _ => none) "cn" "u" "p" "http://h" "GET"
      { headers := [("Content-Type", "text/html")] } { body := "" } =
      (.error ⟨-32603, "No WWW-Authenticate header received"⟩,
       [⟨"http://h", "GET", none⟩]) :=
  ⟨by decide,
   c8_missing_challenge_no_second_request (fun _ => "x") (fun _ => none) "cn" "u" "p"
     "http://h" "GET" { headers := [("Content-Type", "text/html")] } { body := "" }
     (by decide)⟩

/-! ## C9 -/

/-- C9: every tool operation, on success, returns the uniform envelope
`{ content: [{ type: "text", text: stringify(response) }], isError:
false }`, across all five intents (drug search, company search, deal
search, ontology exploration, record fetch). -/
theorem c9_uniform_success_envelope :
    (∀ (p : SearchParams) (auth : String → Except McpErr Json)
       (stringify : Json → String) (r : ToolResult),
      P1.searchDrugsRun p auth stringify = .ok r →
      ∃ j, r = ⟨[⟨"text", stringify j⟩], false⟩) ∧
    (∀ (p : SearchCompaniesParams) (auth : String → Except McpErr Json)
       (stringify : Json → String) (r : ToolResult),
      P1.searchCompaniesRun p auth stringify = .ok r →
      ∃ j, r = ⟨[⟨"text", stringify j⟩], false⟩) ∧
    (∀ (p : SearchDealsParams) (auth : String → Except McpErr Json)
       (stringify : Json → String) (r : ToolResult),
      P1.searchDealsRun p auth stringify = .ok r →
      ∃ j, r = ⟨[⟨"text", stringify j⟩], false⟩) ∧
    (∀ (p : OntologyParams) (auth : String → Except McpErr Json)
       (stringify : Json → String) (r : ToolResult),
      (P1.exploreOntologyRun p auth stringify).1 = .ok r →
      ∃ j, r = ⟨[⟨"text", stringify j⟩], false⟩) ∧
    (∀ (id : String) (auth : String → Except McpErr Json)
       (stringify : Json → String) (r : ToolResult),
      P1.getDrugRun id auth stringify = .ok r →
      ∃ j, r = ⟨[⟨"text", stringify j⟩], false⟩) := by
  refine ⟨fun p auth st r h => ?_, fun p auth st r h => ?_, fun p auth st r h => ?_,
    fun p auth st r h => ?_, fun id auth st r h => ?_⟩
  · cases hA : auth (P1.drugsSearchUrl p) with
    | error e => simp [P1.searchDrugsRun, hA] at h
    | ok j =>
      simp only [P1.searchDrugsRun, hA, Except.ok.injEq] at h
      exact ⟨j, h.symm⟩
  · cases hA : auth (P1.companiesSearchUrl p) with
    | error e => simp [P1.searchCompaniesRun, hA] at h
    | ok j =>
      simp only [P1.searchCompaniesRun, hA, Except.ok.injEq] at h
      exact ⟨j, h.symm⟩
  · cases hA : auth (P1.dealsSearchUrl p) with
    | error e => simp [P1.searchDealsRun, hA] at h
    | ok j =>
      simp only [P1.searchDealsRun, hA, Except.ok.injEq] at h
      exact ⟨j, h.symm⟩
  · unfold P1.exploreOntologyRun at h
    cases hres : ontologyResolve p with
    | error e => rw [hres] at h; simp at h
    | ok ct =>
      obtain ⟨apiCategory, term⟩ := ct
      rw [hres] at h
      cases hA : auth (ontologySearchUrl apiCategory term) with
      | error e => simp [hA] at h
      | ok j =>
        by_cases hj : jsFalsyJson j = true
        · simp [hA, hj] at h
        · simp only [hA, hj, Bool.false_eq_true, if_false, Except.ok.injEq] at h
          exact ⟨j, h.symm⟩
  · cases hA : auth (P1.getDrugUrl id) with
    | error e => simp [P1.getDrugRun, hA] at h
    | ok j =>
      simp only [P1.getDrugRun, hA, Except.ok.injEq] at h
      exact ⟨j, h.symm⟩

/-- Witness for C9: one successful closed run per intent. -/
theorem c9_uniform_success_envelope_witness :
    P1.searchDrugsRun {} (fun _ => .ok (Json.str "ok")) (fun _ => "S") =
      .ok ⟨[⟨"text", "S"⟩], false⟩ ∧
    (∃ _ : Json, (⟨[⟨"text", "S"⟩], false⟩ : ToolResult) = ⟨[⟨"text", "S"⟩], false⟩) ∧
    P1.searchCompaniesRun {} (fun _ => .ok (Json.str "ok")) (fun _ => "S") =
      .ok ⟨[⟨"text", "S"⟩], false⟩ ∧
    P1.searchDealsRun {} (fun _ => .ok (Json.str "ok")) (fun _ => "S") =
      .ok ⟨[⟨"text", "S"⟩], false⟩ ∧
    (P1.exploreOntologyRun { drug_name := some "semaglutide" }
        (fun _ => .ok (Json.str "ok")) (fun _ => "S")).1 =
      .ok ⟨[⟨"text", "S"⟩], false⟩ ∧
    P1.getDrugRun "12345" (fun _ => .ok (Json.str "ok")) (fun _ => "S") =
      .ok ⟨[⟨"text", "S"⟩], false⟩ ∧
    (∃ _ : Json, (⟨[⟨"text", "S"⟩], false⟩ : ToolResult) = ⟨[⟨"text", "S"⟩], false⟩) :=
  ⟨rfl,
   (by
     exact c9_uniform_success_envelope.1 ({} : SearchParams)
       (fun _ => .ok (Json.str "ok")) (fun _ => "S") ⟨[⟨"text", "S"⟩], false⟩ rfl),
   rfl, rfl, rfl, rfl,
   (by
     exact c9_uniform_success_envelope.2.2.2.2 "12345" (fun _ => .ok (Json.str "ok"))
       (fun _ => "S") ⟨[⟨"text", "S"⟩], false⟩ rfl)⟩
